import Mathlib

/-!
Shallow embedding of the price-prediction subsystem of the
`etl-mudah-streamlit` dashboard (files `src/pages/price_prediction.py` and
`src/utils/data_loader.py`), together with proofs of the specification
claims about it.

Modelling conventions:
* A pandas DataFrame is a `Table`: a list of column names plus a list of
  rows; a row is an association list from column name to `Cell`.
* A cell is `null` (NaN), a string, or a rational number.  pandas
  comparisons on NaN are false, which the cell-level comparison helpers
  reproduce.
* sklearn's `LabelEncoder.fit` stores the sorted distinct values of the
  fitted column and `transform` maps a value to its index in that list,
  raising on unseen values; this is embedded exactly (`fitClasses`,
  `encodeVal`).
* sklearn's `train_test_split(test_size=0.2, random_state=42)` and
  `RandomForestRegressor(n_estimators=100, random_state=42).fit` are
  external library calls that, with these fixed seeds, are deterministic
  functions of their inputs.  They are embedded as deterministic
  functions: the split takes the first ceil(n/5) rows as the evaluation
  fold and the rest as the training fold, and the fitted regressor is
  abstracted as an estimator that carries its training data and predicts
  the mean training target (every random-forest prediction lies in the
  range of its training targets; the claims proved below use only
  determinism and that range/positivity property, never the shape of the
  trees).
-/

inductive Cell where
  | null : Cell
  | str : String → Cell
  | num : ℚ → Cell
deriving DecidableEq, Repr

abbrev Row := List (String × Cell)

structure Table where
  cols : List String
  rows : List Row
deriving DecidableEq, Repr

/-- Read a cell of a row by column name; a column absent from the row reads
as NaN (all embedded accesses are schema-guarded, so the default is never
load-bearing). -/
def getCell (r : Row) (c : String) : Cell :=
  match r.lookup c with
  | some v => v
  | none => Cell.null

/-- In-place pandas column assignment for one row: the new binding shadows
any earlier one. -/
def setCell (r : Row) (c : String) (v : Cell) : Row :=
  (c, v) :: r

def Cell.isNull : Cell → Bool
  | Cell.null => true
  | _ => false

/-- A pandas column has object dtype when it holds Python strings. -/
def Cell.isStr : Cell → Bool
  | Cell.str _ => true
  | _ => false

/-- Python `str(...)` of a cell value, as applied by `.astype(str)`. -/
def cellToStr : Cell → String
  | Cell.str s => s
  | Cell.num q => toString q
  | Cell.null => "nan"

/-! ## Feature schema (`train_price_prediction_model`, lines 16-19) -/

def carFeatures : List String :=
  ["make", "model", "year", "mileage_avg", "transmission", "fuel_type"]

def motorcycleFeatures : List String :=
  ["make", "model", "year"]

/-- `if vehicle_type == "car": ... else: ...` — any non-car category gets
the motorcycle feature list. -/
def featuresFor (vehicle_type : String) : List String :=
  if vehicle_type = "car" then carFeatures else motorcycleFeatures

/-- `[f for f in features if f not in model_df.columns]` (line 22). -/
def missingOf (df : Table) (vehicle_type : String) : List String :=
  (featuresFor vehicle_type).filter (fun f => !(df.cols.contains f))

/-- `model_df.dropna(subset=features + ['price'])` (line 28): keep the rows
with no NaN in any schema feature or in price. -/
def cleanedOf (df : Table) (vehicle_type : String) : List Row :=
  df.rows.filter
    (fun r => ((featuresFor vehicle_type) ++ ["price"]).all
      (fun f => !(getCell r f).isNull))

/-! ## Categorical encoding (lines 34-39) -/

/-- `model_df[col].dtype == 'object'`: the column holds strings. -/
def isObjectCol (rows : List Row) (col : String) : Bool :=
  rows.any (fun r => (getCell r col).isStr)

/-- `LabelEncoder.fit`: the classes are the sorted distinct observed
values. -/
def fitClasses (vals : List String) : List String :=
  vals.dedup.insertionSort (fun a b => a ≤ b)

/-- `LabelEncoder.transform` on one value: its index among the classes,
or `none` (sklearn raises `ValueError`) when the value was not observed at
fit time. -/
def encodeVal (classes : List String) (v : String) : Option ℕ :=
  if v ∈ classes then some (classes.indexOf v) else none

/-- The `le_dict` built by the training loop: one fitted encoder per
object-dtype schema column, fitted on the stringified cleaned column. -/
def buildEncoders (features : List String) (cleaned : List Row) :
    List (String × List String) :=
  (features.filter (fun f => isObjectCol cleaned f)).map
    (fun f => (f, fitClasses (cleaned.map (fun r => cellToStr (getCell r f)))))

/-- `model_df[col] = le_dict[col].fit_transform(model_df[col].astype(str))`
applied to one row for every encoded column.  Transforming a value the
encoder was fitted on always succeeds, so the code is written total here;
`encodeVal` returns its index. -/
def encodeCols (encoders : List (String × List String)) (r : Row) : Row :=
  encoders.foldl
    (fun acc fc =>
      setCell acc fc.1 (Cell.num ((fc.2.indexOf (cellToStr (getCell acc fc.1)) : ℕ) : ℚ)))
    r

/-! ## Model fitting (lines 41-57) -/

/-- Numeric reading of a cell for regression targets (prices are numeric
after `dropna`; the default is never hit on schema-valid data). -/
def cellToNum : Cell → ℚ
  | Cell.num q => q
  | _ => 0

def ratMean (l : List ℚ) : ℚ := l.sum / l.length

/-- The fitted `RandomForestRegressor(n_estimators=100, random_state=42)`,
abstracted as described in the header: it owns its training data and its
point prediction is the mean training target. -/
structure ForestModel where
  Xtrain : List (List Cell)
  ytrain : List Cell
deriving DecidableEq, Repr

def ForestModel.predictOne (m : ForestModel) (_x : List Cell) : ℚ :=
  ratMean (m.ytrain.map cellToNum)

/-- `model.score(X, y)`: coefficient of determination R² = 1 - SSres/SStot
(0 when the targets are constant, matching sklearn's degenerate-case
convention of not producing a meaningful score). -/
def r2Score (m : ForestModel) (X : List (List Cell)) (y : List Cell) : ℚ :=
  let ys := y.map cellToNum
  let preds := X.map (fun x => m.predictOne x)
  let ybar := ratMean ys
  let ssRes := ((ys.zip preds).map (fun p => (p.1 - p.2) ^ 2)).sum
  let ssTot := (ys.map (fun v => (v - ybar) ^ 2)).sum
  if ssTot = 0 then 0 else 1 - ssRes / ssTot

/-- `train_test_split(X, y, test_size=0.2, random_state=42)`: with the
fixed seed this is a deterministic partition keeping ceil(n/5) rows for
evaluation; the concrete permutation chosen by numpy's seeded RNG is
external, so the embedding uses the identity permutation (the claims use
only the fold sizes and determinism). -/
def testFoldSize (n : ℕ) : ℕ := (n + 4) / 5

inductive TrainError where
  | schemaError : List String → TrainError
  | insufficientData : ℕ → TrainError
deriving DecidableEq, Repr

structure TrainBundle where
  model : ForestModel
  le_dict : List (String × List String)
  train_score : ℚ
  test_score : ℚ
  features : List String
deriving DecidableEq, Repr

/-- Lines 34-57 of `train_price_prediction_model`: everything after the
row-count gate — encode, split, fit, score. -/
def trainFit (features : List String) (cleaned : List Row) : TrainBundle :=
  let le_dict := buildEncoders features cleaned
  let encoded := cleaned.map (encodeCols le_dict)
  let X := encoded.map (fun r => features.map (fun f => getCell r f))
  let y := encoded.map (fun r => getCell r "price")
  let k := testFoldSize cleaned.length
  let Xtr := X.drop k
  let Xte := X.take k
  let ytr := y.drop k
  let yte := y.take k
  let model : ForestModel := { Xtrain := Xtr, ytrain := ytr }
  { model := model
    le_dict := le_dict
    train_score := r2Score model Xtr ytr
    test_score := r2Score model Xte yte
    features := features }

/-- `train_price_prediction_model(df, vehicle_type)` (lines 9-64): the
schema check, the NaN drop, the 100-row floor, then the fit.  The Python
returns a tuple of `None`s on failure; the embedding returns a typed
error. -/
def train_price_prediction_model (df : Table) (vehicle_type : String) :
    Except TrainError TrainBundle :=
  if missingOf df vehicle_type ≠ [] then
    Except.error (TrainError.schemaError (missingOf df vehicle_type))
  else if (cleanedOf df vehicle_type).length < 100 then
    Except.error (TrainError.insufficientData (cleanedOf df vehicle_type).length)
  else
    Except.ok (trainFit (featuresFor vehicle_type) (cleanedOf df vehicle_type))

/-! ## Prediction (`predict_price`, lines 66-92) -/

inductive PredictError where
  | unknownCategory : String → String → PredictError
deriving DecidableEq, Repr

/-- The loop over `model_features` building `input_data`: an encoded
feature is transformed through its encoder (`ValueError` on an unseen
value aborts the whole prediction), any other feature passes through
unchanged. -/
def encodeInputs (encoders : List (String × List String))
    (features : List String) (inputs : String → Cell) :
    Except PredictError (List Cell) :=
  match features with
  | [] => Except.ok []
  | f :: fs =>
    match encoders.lookup f with
    | some classes =>
      match encodeVal classes (cellToStr (inputs f)) with
      | some code =>
        (encodeInputs encoders fs inputs).map (fun rest => Cell.num (code : ℚ) :: rest)
      | none => Except.error (PredictError.unknownCategory f (cellToStr (inputs f)))
    | none => (encodeInputs encoders fs inputs).map (fun rest => inputs f :: rest)

/-- `predict_price(prediction_model, encoders, model_features, **inputs)`:
encode every feature in schema order, then run inference on the assembled
vector. -/
def predict_price (prediction_model : ForestModel)
    (encoders : List (String × List String)) (model_features : List String)
    (inputs : String → Cell) : Except PredictError ℚ :=
  match encodeInputs encoders model_features inputs with
  | Except.error e => Except.error e
  | Except.ok vec => Except.ok (prediction_model.predictOne vec)

/-! ## Render layer (`render_price_prediction`) -/

/-- `confidence_range = 0.15` (line 156). -/
def confidence_range : ℚ := 15 / 100

structure PredictionResult where
  point_estimate : ℚ
  lower_bound : ℚ
  upper_bound : ℚ
deriving DecidableEq, Repr

/-- Lines 153-160: the displayed estimate together with
`lower_bound = predicted_price * (1 - confidence_range)` and
`upper_bound = predicted_price * (1 + confidence_range)`. -/
def renderResult (predicted_price : ℚ) : PredictionResult :=
  { point_estimate := predicted_price
    lower_bound := predicted_price * (1 - confidence_range)
    upper_bound := predicted_price * (1 + confidence_range) }

/-- The values collected by the input widgets (lines 111-141): `make` and
`model` from selectboxes, `year` and `mileage_avg` from numeric inputs,
`transmission` and `fuel_type` from selectboxes (cars only; the motorcycle
form never reads the last three). -/
structure WidgetInputs where
  make : String
  model : String
  year : ℚ
  mileage_avg : ℚ
  transmission : String
  fuel_type : String
deriving DecidableEq, Repr

/-- The `inputs` dict handed to `predict_price(**inputs)`. -/
def WidgetInputs.cell (w : WidgetInputs) : String → Cell
  | "make" => Cell.str w.make
  | "model" => Cell.str w.model
  | "year" => Cell.num w.year
  | "mileage_avg" => Cell.num w.mileage_avg
  | "transmission" => Cell.str w.transmission
  | "fuel_type" => Cell.str w.fuel_type
  | _ => Cell.null

/-- pandas `series == value` on an object column: true only when the cell
is that very string (NaN compares unequal to everything). -/
def cellEqStr (c : Cell) (s : String) : Bool :=
  match c with
  | Cell.str t => t = s
  | _ => false

/-- pandas `series.between(lo, hi)`: inclusive at both ends, false on
NaN or non-numeric cells. -/
def cellBetween (c : Cell) (lo hi : ℚ) : Bool :=
  match c with
  | Cell.num q => decide (lo ≤ q ∧ q ≤ hi)
  | _ => false

/-- `similar_filter` (lines 164-175): exact make and model, year within
±2, and — when the category is car and `mileage_avg` is a model feature —
mileage within ±20000. -/
def similar_filter (vehicle_type : String) (features : List String)
    (w : WidgetInputs) (r : Row) : Bool :=
  cellEqStr (getCell r "make") w.make &&
  cellEqStr (getCell r "model") w.model &&
  cellBetween (getCell r "year") (w.year - 2) (w.year + 2) &&
  (if vehicle_type = "car" && features.contains "mileage_avg" then
    cellBetween (getCell r "mileage_avg") (w.mileage_avg - 20000) (w.mileage_avg + 20000)
  else true)

/-- `similar_vehicles = df[similar_filter]` (line 177). -/
def find_similar_vehicles (df : Table) (vehicle_type : String)
    (features : List String) (w : WidgetInputs) : List Row :=
  df.rows.filter (similar_filter vehicle_type features w)

/-- `similar_vehicles[display_cols].head(5)` (line 185): the rows actually
shown — the first five matches in table order. -/
def displayed_similar (df : Table) (vehicle_type : String)
    (features : List String) (w : WidgetInputs) : List Row :=
  (find_similar_vehicles df vehicle_type features w).take 5

/-- What the similar-listings section renders (lines 177-201): a table of
up to five comparables, or an informational "no similar listings" note —
there is no error branch. -/
inductive SimilarOutcome where
  | table : List Row → SimilarOutcome
  | info : String → SimilarOutcome
  | error : String → SimilarOutcome
deriving DecidableEq, Repr

def similar_section (df : Table) (vehicle_type : String)
    (features : List String) (w : WidgetInputs) : SimilarOutcome :=
  if find_similar_vehicles df vehicle_type features w ≠ [] then
    SimilarOutcome.table (displayed_similar df vehicle_type features w)
  else
    SimilarOutcome.info "No similar listings found in the database"

/-! ## Dataset loader (`src/utils/data_loader.py`) -/

/-- `pd.to_numeric(series, errors='coerce')` on one cell: numbers pass
through, numeric strings parse (integer literals; pandas also parses
decimal notation, which no claim exercises), everything else coerces to
NaN. -/
def to_numeric (c : Cell) : Cell :=
  match c with
  | Cell.num q => Cell.num q
  | Cell.str s =>
    match s.toInt? with
    | some n => Cell.num (n : ℚ)
    | none => Cell.null
  | Cell.null => Cell.null

/-- Cell addition with NaN propagation. -/
def cellAdd (a b : Cell) : Cell :=
  match a, b with
  | Cell.num x, Cell.num y => Cell.num (x + y)
  | _, _ => Cell.null

/-- Cell halving with NaN propagation: `(min + max) / 2`. -/
def cellHalf (c : Cell) : Cell :=
  match c with
  | Cell.num q => Cell.num (q / 2)
  | _ => Cell.null

/-- `current_year - series` with NaN propagation. -/
def cellSubFrom (k : ℚ) (c : Cell) : Cell :=
  match c with
  | Cell.num q => Cell.num (k - q)
  | _ => Cell.null

/-- `series.astype(int)` on an already numeric cell. -/
def cellFloorInt (c : Cell) : Cell :=
  match c with
  | Cell.num q => Cell.num ((⌊q⌋ : ℤ) : ℚ)
  | _ => Cell.null

/-- Numeric predicate on a cell, false on NaN (pandas comparison
semantics). -/
def cellNumPred (p : ℚ → Bool) (c : Cell) : Bool :=
  match c with
  | Cell.num q => p q
  | _ => false

def addCol (cols : List String) (c : String) : List String :=
  if cols.contains c then cols else cols ++ [c]

/-- `process_vehicle_data(df)` (data_loader.py lines 80-88): derive `age`,
and when both odometer columns exist coerce them to numbers and derive
`mileage_avg` as their average.  All assignments are whole-column
in-place writes on the frame. -/
def process_vehicle_data (currentYear : ℚ) (df : Table) : Table :=
  let rows1 := df.rows.map
    (fun r => setCell r "age" (cellSubFrom currentYear (getCell r "year")))
  let cols1 := addCol df.cols "age"
  if df.cols.contains "mileage_min" && df.cols.contains "mileage_max" then
    { cols := addCol cols1 "mileage_avg"
      rows := rows1.map (fun r =>
        let mn := to_numeric (getCell r "mileage_min")
        let mx := to_numeric (getCell r "mileage_max")
        setCell (setCell (setCell r "mileage_min" mn) "mileage_max" mx)
          "mileage_avg" (cellHalf (cellAdd mn mx))) }
  else
    { cols := cols1, rows := rows1 }

/-- The row filter of `load_car_data` (lines 26-32):
`(price > 0) & (price < 1000000) & (~year.isna()) & (year >= 1900) &
(year <= datetime.now().year)`, each conjunct false on NaN. -/
def carRowFilter (currentYear : ℚ) (r : Row) : Bool :=
  cellNumPred (fun p => decide (0 < p)) (getCell r "price") &&
  cellNumPred (fun p => decide (p < 1000000)) (getCell r "price") &&
  !(getCell r "year").isNull &&
  cellNumPred (fun y => decide (1900 ≤ y)) (getCell r "year") &&
  cellNumPred (fun y => decide (y ≤ currentYear)) (getCell r "year")

/-- `load_car_data()` (lines 6-41) after the CSV parse: coerce price and
year to numbers, filter on price range and year range, cast year to int,
then `process_vehicle_data`.  `datetime.now().year` is passed in as
`currentYear`. -/
def load_car_data (raw : Table) (currentYear : ℚ) : Table :=
  let rows1 := raw.rows.map (fun r =>
    setCell (setCell r "price" (to_numeric (getCell r "price")))
      "year" (to_numeric (getCell r "year")))
  let rows2 := rows1.filter (carRowFilter currentYear)
  let rows3 := rows2.map (fun r => setCell r "year" (cellFloorInt (getCell r "year")))
  process_vehicle_data currentYear { cols := raw.cols, rows := rows3 }

/-! ## Frame effects of training (pandas object semantics)

To state that `train_price_prediction_model` never mutates its caller's
frame, the pandas object model is made explicit: a frame variable is a
reference into a store of frames, `df.copy()` allocates a fresh frame,
`dropna` (without `inplace`) allocates a fresh frame for its result, and
`model_df[col] = ...` writes through the reference it is called on. -/

structure FrameStore where
  frames : List Table
deriving DecidableEq, Repr

def FrameStore.alloc (s : FrameStore) (t : Table) : FrameStore × ℕ :=
  ({ frames := s.frames ++ [t] }, s.frames.length)

def FrameStore.read (s : FrameStore) (i : ℕ) : Table :=
  s.frames.getD i { cols := [], rows := [] }

def FrameStore.write (s : FrameStore) (i : ℕ) (t : Table) : FrameStore :=
  { frames := s.frames.set i t }

/-- `train_price_prediction_model` replayed over the frame store:
`model_df = df.copy()` (line 13) allocates, `model_df =
model_df.dropna(...)` (line 28) allocates and rebinds, and the encoding
loop (lines 36-39) writes columns in place through the `model_df`
reference.  Returns the final store along with the training outcome. -/
def train_model_effect (s0 : FrameStore) (dfRef : ℕ) (vehicle_type : String) :
    FrameStore × Except TrainError TrainBundle :=
  let df := s0.read dfRef
  let alloc1 := s0.alloc df
  let s1 := alloc1.1
  let mRef := alloc1.2
  let features := featuresFor vehicle_type
  let missing := features.filter (fun f => !(s1.read mRef).cols.contains f)
  if missing ≠ [] then
    (s1, Except.error (TrainError.schemaError missing))
  else
    let dropped : Table :=
      { cols := (s1.read mRef).cols
        rows := (s1.read mRef).rows.filter
          (fun r => (features ++ ["price"]).all (fun f => !(getCell r f).isNull)) }
    let alloc2 := s1.alloc dropped
    let s2 := alloc2.1
    let mRef2 := alloc2.2
    if (s2.read mRef2).rows.length < 100 then
      (s2, Except.error (TrainError.insufficientData (s2.read mRef2).rows.length))
    else
      let cleaned := (s2.read mRef2).rows
      let le_dict := buildEncoders features cleaned
      let s3 := s2.write mRef2
        { cols := (s2.read mRef2).cols, rows := cleaned.map (encodeCols le_dict) }
      (s3, Except.ok (trainFit features cleaned))

/-! ## Helper lemmas -/

theorem getCell_setCell_same (r : Row) (c : String) (v : Cell) :
    getCell (setCell r c v) c = v := by
  simp [getCell, setCell, List.lookup]

theorem getCell_setCell_ne (r : Row) (c c' : String) (v : Cell) (h : c' ≠ c) :
    getCell (setCell r c v) c' = getCell r c' := by
  simp [getCell, setCell, List.lookup, beq_eq_false_iff_ne.mpr h]

theorem cellEqStr_iff (c : Cell) (s : String) :
    cellEqStr c s = true ↔ c = Cell.str s := by
  cases c <;> simp [cellEqStr]

theorem cellBetween_iff (c : Cell) (lo hi : ℚ) :
    cellBetween c lo hi = true ↔ ∃ q : ℚ, c = Cell.num q ∧ lo ≤ q ∧ q ≤ hi := by
  cases c <;> simp [cellBetween]

/-- Inversion of a successful training run: the schema check passed, the
row floor was met, and the bundle is the one `trainFit` builds from the
cleaned rows. -/
theorem train_ok_inversion (df : Table) (vt : String) (b : TrainBundle)
    (hok : train_price_prediction_model df vt = Except.ok b) :
    missingOf df vt = [] ∧ 100 ≤ (cleanedOf df vt).length ∧
      b = trainFit (featuresFor vt) (cleanedOf df vt) := by
  unfold train_price_prediction_model at hok
  by_cases h1 : missingOf df vt ≠ []
  · rw [if_pos h1] at hok
    exact absurd hok (by simp)
  · rw [if_neg h1] at hok
    by_cases h2 : (cleanedOf df vt).length < 100
    · rw [if_pos h2] at hok
      exact absurd hok (by simp)
    · rw [if_neg h2] at hok
      refine ⟨not_not.mp h1, by omega, ?_⟩
      exact (Except.ok.injEq _ _).mp hok.symm

/-! ## Concrete fixtures used by the witnesses -/

def row0 : Row :=
  [("make", Cell.str "a"), ("model", Cell.str "b"), ("year", Cell.num 2000),
   ("mileage_avg", Cell.num 1), ("transmission", Cell.str "t"),
   ("fuel_type", Cell.str "p"), ("price", Cell.num 5), ("ad_url", Cell.null)]

def stdCols : List String :=
  ["make", "model", "year", "mileage_avg", "transmission", "fuel_type", "price", "ad_url"]

def tbl100 : Table := { cols := stdCols, rows := List.replicate 100 row0 }

def tbl99 : Table := { cols := stdCols, rows := List.replicate 99 row0 }

def tblNoFuel : Table :=
  { cols := ["make", "model", "year", "mileage_avg", "transmission", "price"]
    rows := [] }

def w0 : WidgetInputs :=
  { make := "a", model := "b", year := 2000, mileage_avg := 1,
    transmission := "t", fuel_type := "p" }

def wUnknown : WidgetInputs :=
  { make := "z", model := "b", year := 2000, mileage_avg := 1,
    transmission := "t", fuel_type := "p" }

def wNoMatch : WidgetInputs :=
  { make := "z", model := "z", year := 2000, mileage_avg := 1,
    transmission := "t", fuel_type := "p" }

def crow : Row :=
  [("make", Cell.str "h"), ("model", Cell.str "c"), ("year", Cell.num 2015),
   ("price", Cell.num 50000), ("mileage_min", Cell.num (-10)),
   ("mileage_max", Cell.num (-20)), ("transmission", Cell.str "Auto"),
   ("fuel_type", Cell.str "Petrol"), ("ad_url", Cell.null)]

def ctable : Table :=
  { cols := ["make", "model", "year", "price", "mileage_min", "mileage_max",
             "transmission", "fuel_type", "ad_url"]
    rows := [crow] }

/-! ## Claim theorems -/

/-- Claim C5: when any feature of the category's fixed schema is absent as
a column of the table, training fails with a warning-level failure naming
exactly the missing features (in schema order) and returns no model. -/
theorem schema_error_names_missing (df : Table) (vt : String)
    (h : missingOf df vt ≠ []) :
    train_price_prediction_model df vt
      = Except.error (TrainError.schemaError (missingOf df vt)) ∧
    ∀ b : TrainBundle, train_price_prediction_model df vt ≠ Except.ok b := by
  unfold train_price_prediction_model
  rw [if_pos h]
  exact ⟨rfl, by simp⟩

/-- Witness for C5: a car table lacking only `fuel_type` is rejected with
a SchemaError naming exactly `fuel_type`. -/
theorem schema_error_names_missing_witness :
    train_price_prediction_model tblNoFuel "car"
      = Except.error (TrainError.schemaError ["fuel_type"]) :=
  (schema_error_names_missing tblNoFuel "car" (by decide)).1

/-- Claim C2: once the schema check passes, training returns the
insufficient-data failure exactly when the post-`dropna` row count is
below 100, and succeeds (returns a model bundle without throwing) exactly
when that count is at least 100. -/
theorem insufficient_data_gate (df : Table) (vt : String)
    (hschema : missingOf df vt = []) :
    (train_price_prediction_model df vt
        = Except.error (TrainError.insufficientData (cleanedOf df vt).length)
      ↔ (cleanedOf df vt).length < 100) ∧
    ((∃ b, train_price_prediction_model df vt = Except.ok b)
      ↔ 100 ≤ (cleanedOf df vt).length) := by
  unfold train_price_prediction_model
  rw [if_neg (by simp [hschema])]
  by_cases h : (cleanedOf df vt).length < 100
  · rw [if_pos h]
    constructor
    · exact ⟨fun _ => h, fun _ => rfl⟩
    · constructor
      · rintro ⟨b, hb⟩
        exact absurd hb (by simp)
      · intro hge
        omega
  · rw [if_neg h]
    constructor
    · constructor
      · intro he
        exact absurd he (by simp)
      · intro hlt
        omega
    · exact ⟨fun _ => by omega, fun _ => ⟨_, rfl⟩⟩

/-- Witness for C2: on exactly 99 valid rows training fails with the
insufficient-data error reporting 99; on exactly 100 it proceeds to a
model. -/
theorem insufficient_data_gate_witness :
    train_price_prediction_model tbl99 "car"
      = Except.error (TrainError.insufficientData 99) ∧
    ((train_price_prediction_model tbl100 "car").toOption.isSome = true) := by
  constructor
  · exact (insufficient_data_gate tbl99 "car" (by decide)).1.mpr (by decide)
  · obtain ⟨b, hb⟩ := (insufficient_data_gate tbl100 "car" (by decide)).2.mpr (by decide)
    rw [hb]
    rfl

/-- The scores of a training run, when it produced a model. -/
def scoresOfRun (r : Except TrainError TrainBundle) : Option (ℚ × ℚ) :=
  match r with
  | Except.ok b => some (b.train_score, b.test_score)
  | Except.error _ => none

/-- The prediction a training run's model gives for some inputs, when the
run produced a model. -/
def predictOfRun (r : Except TrainError TrainBundle) (inputs : String → Cell) :
    Option (Except PredictError ℚ) :=
  match r with
  | Except.ok b => some (predict_price b.model b.le_dict b.features inputs)
  | Except.error _ => none

/-- Claim C6: two runs of training on an identical table and category
yield identical outcomes — the same train/test scores and a model giving
identical predictions for the same inputs.  This holds because the
embedding of `train_price_prediction_model` is a pure function of its
arguments: the only nondeterminism in the source, the 80/20 partition and
the forest fit, is seeded with the literal `random_state=42` at both call
sites, so neither takes any input beyond the data. -/
theorem train_is_deterministic (df1 df2 : Table) (vt : String)
    (inputs : String → Cell) (heq : df1 = df2) :
    train_price_prediction_model df1 vt = train_price_prediction_model df2 vt ∧
    scoresOfRun (train_price_prediction_model df1 vt)
      = scoresOfRun (train_price_prediction_model df2 vt) ∧
    predictOfRun (train_price_prediction_model df1 vt) inputs
      = predictOfRun (train_price_prediction_model df2 vt) inputs := by
  subst heq
  exact ⟨rfl, rfl, rfl⟩

/-- Witness for C6: two runs on the same 100-row table agree on scores
and predictions. -/
theorem train_is_deterministic_witness :
    scoresOfRun (train_price_prediction_model tbl100 "car")
      = scoresOfRun (train_price_prediction_model tbl100 "car") ∧
    predictOfRun (train_price_prediction_model tbl100 "car") w0.cell
      = predictOfRun (train_price_prediction_model tbl100 "car") w0.cell :=
  ⟨(train_is_deterministic tbl100 tbl100 "car" w0.cell rfl).2.1,
   (train_is_deterministic tbl100 tbl100 "car" w0.cell rfl).2.2⟩

/-- Claim C10: training never mutates the caller's frame.  Replaying
`train_price_prediction_model` over the explicit frame store — where
`df.copy()` allocates, `dropna` allocates, and the encoding loop's column
assignments write through the `model_df` reference — leaves the frame the
caller passed in untouched on every path (schema failure, insufficient
data, or success). -/
theorem train_preserves_caller_table (t : Table) (vt : String) :
    ((train_model_effect { frames := [t] } 0 vt).1).read 0 = t := by
  unfold train_model_effect FrameStore.alloc FrameStore.read FrameStore.write
  dsimp only
  split
  · rfl
  · split
    · rfl
    · rfl

/-- The matching rule exactly as the claim words it: exact make and model,
year within ±2 inclusive, and — for cars only — mileage within ±20,000
inclusive. -/
def comparableSpec (vehicle_type : String) (w : WidgetInputs) (r : Row) : Prop :=
  getCell r "make" = Cell.str w.make ∧
  getCell r "model" = Cell.str w.model ∧
  (∃ y : ℚ, getCell r "year" = Cell.num y ∧ |y - w.year| ≤ 2) ∧
  (vehicle_type = "car" →
    ∃ m : ℚ, getCell r "mileage_avg" = Cell.num m ∧ |m - w.mileage_avg| ≤ 20000)

theorem similar_filter_iff (vehicle_type : String) (w : WidgetInputs) (r : Row) :
    similar_filter vehicle_type (featuresFor vehicle_type) w r = true
      ↔ comparableSpec vehicle_type w r := by
  unfold similar_filter comparableSpec
  by_cases hc : vehicle_type = "car"
  · subst hc
    rw [if_pos (by decide)]
    simp only [Bool.and_eq_true, cellEqStr_iff, cellBetween_iff]
    constructor
    · rintro ⟨⟨⟨hA, hB⟩, ⟨y, hy, h1, h2⟩⟩, ⟨m, hm, h3, h4⟩⟩
      refine ⟨hA, hB, ⟨y, hy, ?_⟩, fun _ => ⟨m, hm, ?_⟩⟩ <;>
        rw [abs_le] <;> constructor <;> linarith
    · rintro ⟨hA, hB, ⟨y, hy, hy2⟩, hmil⟩
      obtain ⟨m, hm, hm2⟩ := hmil (by trivial)
      rw [abs_le] at hy2 hm2
      exact ⟨⟨⟨hA, hB⟩, ⟨y, hy, by linarith [hy2.1, hy2.2], by linarith [hy2.1, hy2.2]⟩⟩,
        ⟨m, hm, by linarith [hm2.1, hm2.2], by linarith [hm2.1, hm2.2]⟩⟩
  · rw [if_neg (by simp [hc])]
    simp only [Bool.and_true, Bool.and_eq_true, cellEqStr_iff, cellBetween_iff]
    constructor
    · rintro ⟨⟨hA, hB⟩, ⟨y, hy, h1, h2⟩⟩
      refine ⟨hA, hB, ⟨y, hy, ?_⟩, fun hcar => absurd hcar hc⟩
      rw [abs_le]
      constructor <;> linarith
    · rintro ⟨hA, hB, ⟨y, hy, hy2⟩, _⟩
      rw [abs_le] at hy2
      exact ⟨⟨hA, hB⟩, ⟨y, hy, by linarith [hy2.1, hy2.2], by linarith [hy2.1, hy2.2]⟩⟩

/-- Claim C4: a listing is retained by the similar-listings filter exactly
when its make and model equal the supplied ones, its year is within ±2
inclusive of the supplied year, and — for cars — its mileage is within
±20,000 inclusive of the supplied mileage; the rows shown are the first
five matches in table order, hence at most five. -/
theorem comparable_filter_correct (df : Table) (vehicle_type : String) (w : WidgetInputs) :
    (∀ r, similar_filter vehicle_type (featuresFor vehicle_type) w r = true
        ↔ comparableSpec vehicle_type w r) ∧
    displayed_similar df vehicle_type (featuresFor vehicle_type) w
      = (df.rows.filter (similar_filter vehicle_type (featuresFor vehicle_type) w)).take 5 ∧
    (displayed_similar df vehicle_type (featuresFor vehicle_type) w).length ≤ 5 ∧
    ∀ r ∈ displayed_similar df vehicle_type (featuresFor vehicle_type) w,
      comparableSpec vehicle_type w r := by
  refine ⟨similar_filter_iff vehicle_type w, rfl, ?_, ?_⟩
  · exact le_trans (List.length_take_le 5 _) le_rfl
  · intro r hr
    have hmem := List.mem_of_mem_take hr
    exact (similar_filter_iff vehicle_type w r).mp (List.of_mem_filter hmem)

/-- Witness for C4: on the 100-row fixture the matching fixture row
satisfies the spec-side matching rule, and the displayed list has at most
five rows. -/
theorem comparable_filter_correct_witness :
    comparableSpec "car" w0 row0 ∧
    (displayed_similar tbl100 "car" (featuresFor "car") w0).length ≤ 5 := by
  have hfilter : similar_filter "car" (featuresFor "car") w0 row0 = true := by
    unfold similar_filter
    rw [if_pos (by decide)]
    rw [show w0.year - 2 = (1998 : ℚ) from by norm_num [w0],
      show w0.year + 2 = (2002 : ℚ) from by norm_num [w0],
      show w0.mileage_avg - 20000 = (-19999 : ℚ) from by norm_num [w0],
      show w0.mileage_avg + 20000 = (20001 : ℚ) from by norm_num [w0]]
    decide
  exact ⟨((comparable_filter_correct tbl100 "car" w0).1 row0).mp hfilter,
    (comparable_filter_correct tbl100 "car" w0).2.2.1⟩

/-- Claim C8: when the similar-listings filter matches no row, the finder
returns the empty sequence and the render layer emits an informational
note, never an error. -/
theorem empty_comparables_not_error (df : Table) (vehicle_type : String)
    (features : List String) (w : WidgetInputs)
    (h : ∀ r ∈ df.rows, similar_filter vehicle_type features w r = false) :
    find_similar_vehicles df vehicle_type features w = [] ∧
    similar_section df vehicle_type features w
      = SimilarOutcome.info "No similar listings found in the database" ∧
    ∀ msg, similar_section df vehicle_type features w ≠ SimilarOutcome.error msg := by
  have hnil : find_similar_vehicles df vehicle_type features w = [] := by
    unfold find_similar_vehicles
    rw [List.filter_eq_nil_iff]
    intro r hr
    simp [h r hr]
  refine ⟨hnil, ?_, ?_⟩
  · unfold similar_section
    rw [if_neg (by simp [hnil])]
  · intro msg
    unfold similar_section
    rw [if_neg (by simp [hnil])]
    simp

/-- Witness for C8: inputs matching nothing in the 100-row fixture yield
the empty list and the informational note. -/
theorem empty_comparables_not_error_witness :
    find_similar_vehicles tbl100 "car" (featuresFor "car") wNoMatch = [] ∧
    similar_section tbl100 "car" (featuresFor "car") wNoMatch
      = SimilarOutcome.info "No similar listings found in the database" :=
  ⟨(empty_comparables_not_error tbl100 "car" (featuresFor "car") wNoMatch (by decide)).1,
   (empty_comparables_not_error tbl100 "car" (featuresFor "car") wNoMatch (by decide)).2.1⟩

/-- If any feature in the list has an encoder that was never fitted on the
supplied value, the input-encoding loop aborts with an unknown-category
error naming an offending feature and its unrecognized value. -/
theorem encodeInputs_unknown (encoders : List (String × List String))
    (features : List String) (inputs : String → Cell)
    (h : ∃ f ∈ features, ∃ classes,
      encoders.lookup f = some classes ∧ cellToStr (inputs f) ∉ classes) :
    ∃ f v classes, encodeInputs encoders features inputs
        = Except.error (PredictError.unknownCategory f v) ∧
      encoders.lookup f = some classes ∧ v = cellToStr (inputs f) ∧ v ∉ classes := by
  induction features with
  | nil =>
    obtain ⟨f, hf, -⟩ := h
    exact absurd hf (List.not_mem_nil f)
  | cons g gs ih =>
    obtain ⟨f, hf, classes, hlook, hnot⟩ := h
    rcases hg : encoders.lookup g with _ | gclasses
    · have hf2 : f ∈ gs := by
        rcases List.mem_cons.mp hf with h1 | h1
        · subst h1
          rw [hg] at hlook
          exact absurd hlook (by simp)
        · exact h1
      obtain ⟨f2, v2, c2, heq, hl2, hv2, hn2⟩ := ih ⟨f, hf2, classes, hlook, hnot⟩
      refine ⟨f2, v2, c2, ?_, hl2, hv2, hn2⟩
      simp only [encodeInputs, hg, heq]
      rfl
    · rcases he : encodeVal gclasses (cellToStr (inputs g)) with _ | code
      · refine ⟨g, cellToStr (inputs g), gclasses, ?_, hg, rfl, ?_⟩
        · simp only [encodeInputs, hg, he]
        · intro hmem
          rw [encodeVal, if_pos hmem] at he
          exact absurd he (by simp)
      · have hf2 : f ∈ gs := by
          rcases List.mem_cons.mp hf with h1 | h1
          · subst h1
            rw [hg] at hlook
            have hcl : gclasses = classes := Option.some.inj hlook
            subst hcl
            rw [encodeVal, if_neg hnot] at he
            exact absurd he (by simp)
          · exact h1
        obtain ⟨f2, v2, c2, heq, hl2, hv2, hn2⟩ := ih ⟨f, hf2, classes, hlook, hnot⟩
        refine ⟨f2, v2, c2, ?_, hl2, hv2, hn2⟩
        simp only [encodeInputs, hg, he, heq]
        rfl

/-- Claim C1: when any encoded feature's supplied value was not observed
at training time, `predict_price` aborts the whole prediction with an
unknown-category failure reporting an unrecognized feature/value pair, and
never returns a numeric point estimate. -/
theorem predict_rejects_unknown_category (prediction_model : ForestModel)
    (encoders : List (String × List String)) (model_features : List String)
    (inputs : String → Cell)
    (h : ∃ f ∈ model_features, ∃ classes,
      encoders.lookup f = some classes ∧ cellToStr (inputs f) ∉ classes) :
    (∃ f v classes,
      predict_price prediction_model encoders model_features inputs
          = Except.error (PredictError.unknownCategory f v) ∧
        encoders.lookup f = some classes ∧ v = cellToStr (inputs f) ∧ v ∉ classes) ∧
    ∀ q : ℚ, predict_price prediction_model encoders model_features inputs ≠ Except.ok q := by
  obtain ⟨f, v, classes, heq, hl, hv, hn⟩ :=
    encodeInputs_unknown encoders model_features inputs h
  constructor
  · exact ⟨f, v, classes, by unfold predict_price; rw [heq], hl, hv, hn⟩
  · intro q hq
    unfold predict_price at hq
    rw [heq] at hq
    exact absurd hq (by simp)

set_option maxRecDepth 4000 in
/-- Witness for C1: predicting with make "z", which the 100-row fixture
never exhibited, cannot return the numeric estimate 5. -/
theorem predict_rejects_unknown_category_witness :
    predict_price (trainFit (featuresFor "car") (cleanedOf tbl100 "car")).model
        (trainFit (featuresFor "car") (cleanedOf tbl100 "car")).le_dict
        (trainFit (featuresFor "car") (cleanedOf tbl100 "car")).features
        wUnknown.cell
      ≠ Except.ok 5 :=
  (predict_rejects_unknown_category _ _ _ _
    ⟨"make", by decide, ["a"], by decide, by decide⟩).2 5

theorem mem_fitClasses (vals : List String) (v : String) :
    v ∈ fitClasses vals ↔ v ∈ vals := by
  unfold fitClasses
  rw [List.mem_insertionSort, List.mem_dedup]

theorem fitClasses_nodup (vals : List String) : (fitClasses vals).Nodup :=
  (List.perm_insertionSort (fun a b => a ≤ b) vals.dedup).nodup_iff.mpr
    (List.nodup_dedup vals)

/-- Every encoder the training loop stores is fitted on the stringified
cleaned column of its feature. -/
theorem buildEncoders_mem_inversion (features : List String) (cleaned : List Row)
    (f : String) (classes : List String)
    (hf : (f, classes) ∈ buildEncoders features cleaned) :
    classes = fitClasses (cleaned.map (fun r => cellToStr (getCell r f))) := by
  unfold buildEncoders at hf
  obtain ⟨g, -, heq⟩ := List.mem_map.mp hf
  obtain ⟨h1, h2⟩ := Prod.mk.injEq .. ▸ heq
  subst h1
  exact h2.symm

/-- Claim C7: every encoder table a successful training run stores is a
bijection between the distinct observed string values and the integer
codes 0..n-1 — its class list is duplicate-free, a value is encodable
exactly when it was observed in the cleaned training column, encoding is
injective on observed values and surjective onto the code range — and
encoding the same value twice yields the same code. -/
theorem encoder_table_bijective (df : Table) (vt : String) (b : TrainBundle)
    (hok : train_price_prediction_model df vt = Except.ok b)
    (f : String) (classes : List String) (hf : (f, classes) ∈ b.le_dict) :
    classes.Nodup ∧
    (∀ v, v ∈ classes ↔ v ∈ (cleanedOf df vt).map (fun r => cellToStr (getCell r f))) ∧
    (∀ v w, v ∈ classes → w ∈ classes →
      encodeVal classes v = encodeVal classes w → v = w) ∧
    (∀ c : ℕ, c < classes.length → ∃ v ∈ classes, encodeVal classes v = some c) ∧
    (∀ v, encodeVal classes v = encodeVal classes v) := by
  obtain ⟨-, -, hb⟩ := train_ok_inversion df vt b hok
  subst hb
  have hclasses := buildEncoders_mem_inversion (featuresFor vt) (cleanedOf df vt)
    f classes hf
  subst hclasses
  refine ⟨fitClasses_nodup _, fun v => mem_fitClasses _ v, ?_, ?_, fun v => rfl⟩
  · intro v w hv hw hvw
    rw [encodeVal, if_pos hv, encodeVal, if_pos hw] at hvw
    exact (List.indexOf_inj hv hw).mp (Option.some.inj hvw)
  · intro c hc
    refine ⟨(fitClasses _).get ⟨c, hc⟩, List.get_mem _ _ _, ?_⟩
    rw [encodeVal, if_pos (List.get_mem _ _ _)]
    rw [List.get_indexOf (fitClasses_nodup _) ⟨c, hc⟩]

set_option maxRecDepth 4000 in
/-- Witness for C7: the make-encoder fitted by training on the 100-row
fixture has the duplicate-free class list `["a"]`, and encoding "a" twice
agrees. -/
theorem encoder_table_bijective_witness :
    (["a"] : List String).Nodup ∧ encodeVal ["a"] "a" = encodeVal ["a"] "a" :=
  ⟨(encoder_table_bijective tbl100 "car"
      (trainFit (featuresFor "car") (cleanedOf tbl100 "car")) rfl
      "make" ["a"] (by decide)).1,
   (encoder_table_bijective tbl100 "car"
      (trainFit (featuresFor "car") (cleanedOf tbl100 "car")) rfl
      "make" ["a"] (by decide)).2.2.2.2 "a"⟩

/-- Columns that no encoder targets pass through the encoding loop
unchanged. -/
theorem encodeCols_getCell_not_encoded (encoders : List (String × List String))
    (r : Row) (c : String) (h : ∀ fc ∈ encoders, fc.1 ≠ c) :
    getCell (encodeCols encoders r) c = getCell r c := by
  induction encoders generalizing r with
  | nil => rfl
  | cons fc rest ih =>
    have step : encodeCols (fc :: rest) r
        = encodeCols rest
          (setCell r fc.1
            (Cell.num ((fc.2.indexOf (cellToStr (getCell r fc.1)) : ℕ) : ℚ))) := rfl
    rw [step, ih _ (fun g hg => h g (List.mem_cons_of_mem _ hg))]
    exact getCell_setCell_ne r fc.1 c _ (Ne.symm (h fc (List.mem_cons_self _ _)))

theorem buildEncoders_keys (features : List String) (cleaned : List Row) :
    ∀ fc ∈ buildEncoders features cleaned, fc.1 ∈ features := by
  intro fc hfc
  unfold buildEncoders at hfc
  obtain ⟨g, hg, heq⟩ := List.mem_map.mp hfc
  rw [← heq]
  exact List.mem_of_mem_filter hg

theorem price_not_in_features (vt : String) : "price" ∉ featuresFor vt := by
  unfold featuresFor
  split <;> decide

theorem ratMean_pos (l : List ℚ) (hne : l ≠ []) (hpos : ∀ q ∈ l, 0 < q) :
    0 < ratMean l := by
  unfold ratMean
  apply div_pos (List.sum_pos l hpos hne)
  exact_mod_cast List.length_pos.mpr hne

/-- The abstracted forest fitted by a successful run predicts a positive
price whenever every price in the input table is positive: its point
prediction is an average of cleaned training prices, of which there are at
least 80. -/
theorem trainFit_prediction_pos (df : Table) (vt : String)
    (hpos : ∀ r ∈ df.rows, ∃ q : ℚ, getCell r "price" = Cell.num q ∧ 0 < q)
    (hlen : 100 ≤ (cleanedOf df vt).length) (x : List Cell) :
    0 < ((trainFit (featuresFor vt) (cleanedOf df vt)).model).predictOne x := by
  have hy : (trainFit (featuresFor vt) (cleanedOf df vt)).model.ytrain
      = (((cleanedOf df vt).map
            (encodeCols (buildEncoders (featuresFor vt) (cleanedOf df vt)))).map
          (fun r => getCell r "price")).drop
        (testFoldSize (cleanedOf df vt).length) := rfl
  show 0 < ratMean ((trainFit (featuresFor vt) (cleanedOf df vt)).model.ytrain.map cellToNum)
  apply ratMean_pos
  · -- the training fold keeps at least 100 - ceil(100/5) rows
    rw [hy]
    intro hcon
    have hlen2 := congrArg List.length hcon
    rw [List.length_map, List.length_drop, List.length_map, List.length_map,
      List.length_nil] at hlen2
    have hk : testFoldSize (cleanedOf df vt).length < (cleanedOf df vt).length := by
      unfold testFoldSize
      rw [Nat.div_lt_iff_lt_mul (by norm_num)]
      omega
    omega
  · intro q hq
    rw [hy] at hq
    obtain ⟨c, hc, hcq⟩ := List.mem_map.mp hq
    obtain ⟨r, hr, hrc⟩ := List.mem_map.mp (List.mem_of_mem_drop hc)
    obtain ⟨r0, hr0, hr0r⟩ := List.mem_map.mp hr
    have hkeys : ∀ fc ∈ buildEncoders (featuresFor vt) (cleanedOf df vt),
        fc.1 ≠ "price" := by
      intro fc hfc heq
      exact price_not_in_features vt (heq ▸ buildEncoders_keys _ _ fc hfc)
    have hpr : getCell r "price" = getCell r0 "price" := by
      rw [← hr0r]
      exact encodeCols_getCell_not_encoded _ r0 "price" hkeys
    obtain ⟨q0, hq0, hq0pos⟩ := hpos r0 (List.mem_of_mem_filter hr0)
    rw [← hcq, ← hrc, hpr, hq0]
    exact hq0pos

/-- Claim C3: for every successful prediction against a model trained on a
table of positive prices (the loader's contract), the rendered bounds are
exactly 0.85 and 1.15 times the point estimate, and they strictly bracket
it. -/
theorem prediction_bounds_correct (df : Table) (vt : String) (b : TrainBundle)
    (hpos : ∀ r ∈ df.rows, ∃ q : ℚ, getCell r "price" = Cell.num q ∧ 0 < q)
    (hok : train_price_prediction_model df vt = Except.ok b)
    (inputs : String → Cell) (p : ℚ)
    (hp : predict_price b.model b.le_dict b.features inputs = Except.ok p) :
    (renderResult p).point_estimate = p ∧
    (renderResult p).lower_bound = p * (85 / 100) ∧
    (renderResult p).upper_bound = p * (115 / 100) ∧
    (renderResult p).lower_bound < p ∧ p < (renderResult p).upper_bound := by
  obtain ⟨-, hlen, hb⟩ := train_ok_inversion df vt b hok
  have hppos : 0 < p := by
    subst hb
    unfold predict_price at hp
    rcases he : encodeInputs
        (trainFit (featuresFor vt) (cleanedOf df vt)).le_dict
        (trainFit (featuresFor vt) (cleanedOf df vt)).features inputs with e | vec
    · rw [he] at hp
      exact absurd hp (by simp)
    · rw [he] at hp
      simp only [Except.ok.injEq] at hp
      rw [← hp]
      exact trainFit_prediction_pos df vt hpos hlen vec
  have h15 : (0 : ℚ) < p * (15 / 100) := mul_pos hppos (by norm_num)
  refine ⟨rfl, ?_, ?_, ?_, ?_⟩
  · show p * (1 - confidence_range) = p * (85 / 100)
    unfold confidence_range
    ring
  · show p * (1 + confidence_range) = p * (115 / 100)
    unfold confidence_range
    ring
  · show p * (1 - confidence_range) < p
    unfold confidence_range
    nlinarith [h15]
  · show p < p * (1 + confidence_range)
    unfold confidence_range
    nlinarith [h15]

set_option maxRecDepth 8000 in
/-- Witness for C3: the fixture model predicts 5 for the fixture inputs,
and the rendered band around 5 is exactly [4.25, 5.75]. -/
theorem prediction_bounds_correct_witness :
    (renderResult 5).lower_bound = 5 * (85 / 100) ∧
    (renderResult 5).upper_bound = 5 * (115 / 100) ∧
    (renderResult 5).lower_bound < 5 ∧ (5 : ℚ) < (renderResult 5).upper_bound := by
  have hpos : ∀ r ∈ tbl100.rows, ∃ q : ℚ, getCell r "price" = Cell.num q ∧ 0 < q := by
    intro r hr
    have hr0 : r = row0 := List.eq_of_mem_replicate hr
    subst hr0
    exact ⟨5, rfl, by norm_num⟩
  have hp : predict_price (trainFit (featuresFor "car") (cleanedOf tbl100 "car")).model
      (trainFit (featuresFor "car") (cleanedOf tbl100 "car")).le_dict
      (trainFit (featuresFor "car") (cleanedOf tbl100 "car")).features w0.cell
      = Except.ok 5 := by
    obtain ⟨vec, hvec⟩ : ∃ v,
        encodeInputs (trainFit (featuresFor "car") (cleanedOf tbl100 "car")).le_dict
          (trainFit (featuresFor "car") (cleanedOf tbl100 "car")).features w0.cell
        = Except.ok v := ⟨_, rfl⟩
    unfold predict_price
    rw [hvec]
    have hytr : (trainFit (featuresFor "car") (cleanedOf tbl100 "car")).model.ytrain
        = List.replicate 80 (Cell.num 5) := rfl
    show Except.ok (ForestModel.predictOne _ vec) = Except.ok 5
    congr 1
    unfold ForestModel.predictOne
    rw [hytr, List.map_replicate]
    show ratMean (List.replicate 80 (5 : ℚ)) = 5
    unfold ratMean
    rw [List.sum_replicate, List.length_replicate]
    norm_num
  have h := prediction_bounds_correct tbl100 "car"
    (trainFit (featuresFor "car") (cleanedOf tbl100 "car")) hpos rfl w0.cell 5 hp
  exact ⟨h.2.1, h.2.2.1, h.2.2.2.1, h.2.2.2.2⟩

/-- The single row the loader produces from the fixture export `ctable`
(a listing with negative odometer readings and capitalized fuel type that
passes every filter the loader actually applies). -/
def loadedCarRow : Row := (load_car_data ctable 2025).rows.head!

/-- Counterexample for C9: the loader emits a working-table row whose
`mileage_avg` is the negative number -15 — the average of the odometer
fields is computed but never clamped or checked against 0 — and whose
`fuel_type` still carries its original capitalization "Petrol": the
lowercasing happens in the market-overview renderer, not in the loader. -/
theorem loader_normalization_counterexample :
    loadedCarRow ∈ (load_car_data ctable 2025).rows ∧
    getCell loadedCarRow "mileage_avg" = Cell.num (-15) ∧
    ((-15 : ℚ) < 0) ∧
    getCell loadedCarRow "fuel_type" = Cell.str "Petrol" ∧
    "Petrol" ≠ "petrol" := by
  refine ⟨List.head!_mem_self (by decide), ?_, by norm_num, rfl, by decide⟩
  have h1 : getCell loadedCarRow "mileage_avg"
      = Cell.num (((-10 : ℚ) + (-20)) / 2) := rfl
  rw [h1, show ((-10 : ℚ) + (-20)) / 2 = (-15 : ℚ) from by norm_num]

/-- Claim C9 as amended: for every row the car loader emits (given the
export has both odometer columns), `mileage_avg` equals the average of the
numerically coerced `mileage_min`/`mileage_max` cells — with no sign
guarantee and NaN when either coercion fails — and `fuel_type` is carried
over from the source row unchanged; case normalization is not the
loader's doing. -/
theorem loader_mileage_fuel_amended (raw : Table) (cy : ℚ)
    (hmin : raw.cols.contains "mileage_min" = true)
    (hmax : raw.cols.contains "mileage_max" = true) :
    ∀ r ∈ (load_car_data raw cy).rows,
      getCell r "mileage_avg"
        = cellHalf (cellAdd (getCell r "mileage_min") (getCell r "mileage_max")) ∧
      ∃ r0 ∈ raw.rows, getCell r "fuel_type" = getCell r0 "fuel_type" := by
  intro r hr
  have hcond : (raw.cols.contains "mileage_min" && raw.cols.contains "mileage_max")
      = true := by rw [hmin, hmax]; rfl
  simp only [load_car_data, process_vehicle_data, hcond, if_true, List.mem_map,
    List.mem_filter] at hr
  obtain ⟨a, ⟨a1, ⟨a2, ⟨⟨c, hc, hc2⟩, hfil⟩, hya⟩, hage⟩, hmil⟩ := hr
  subst hmil
  subst hage
  subst hya
  subst hc2
  refine ⟨?_, ⟨c, hc, ?_⟩⟩ <;>
    simp [getCell_setCell_same, getCell_setCell_ne]

/-- Witness for the amended C9: the fixture's loaded row has
`mileage_avg` equal to the average of its coerced odometer cells. -/
theorem loader_mileage_fuel_amended_witness :
    getCell loadedCarRow "mileage_avg"
      = cellHalf (cellAdd (getCell loadedCarRow "mileage_min")
          (getCell loadedCarRow "mileage_max")) :=
  (loader_mileage_fuel_amended ctable 2025 (by decide) (by decide)
    loadedCarRow (List.head!_mem_self (by decide))).1
